import Mathlib

/-!
Shallow embedding of the lane-finding and steering pipeline of
src/CarApp/Analyser.py (Adaptive-Cruise-Control-UDOO).

The source file is Python 2: it contains statement-form print
(line 273, "print width, final_x"), which does not parse under Python 3.
Consequently the slash operator on the integer line coordinates returned
by the Hough transform performs floor division (numpy int32 division in
Python 2 follows the Python floor convention).  Machine floats produced
by numpy polyfit are modelled by exact rational arithmetic; the Python
builtin int(), which truncates toward zero, is modelled by pyInt below.
-/

namespace CarApp

/-- A raw line segment as produced by the Hough transform: the four
integer coordinates x1, y1, x2, y2 unpacked at Analyser.py line 124. -/
structure Seg where
  x1 : ℤ
  y1 : ℤ
  x2 : ℤ
  y2 : ℤ
deriving DecidableEq

/-- Slope computed at Analyser.py lines 127-130: the sentinel 999 when
x2 = x1, otherwise the Python-2 floor division of the integer
coordinate differences. -/
def pySlope (l : Seg) : ℤ :=
  if l.x2 - l.x1 = 0 then 999 else Int.fdiv (l.y2 - l.y1) (l.x2 - l.x1)

/-- Python builtin abs on a rational value, written so that the kernel
can evaluate it. -/
def ratAbs (q : ℚ) : ℚ :=
  if q < 0 then -q else q

/-- Slope filter at Analyser.py line 133: abs(slope) > slope_threshold
with slope_threshold = 0.5 (line 120).  The slope value is the integer
of pySlope, compared against the rational 1/2. -/
def slopeOk (l : Seg) : Bool :=
  decide ((1 : ℚ)/2 < ratAbs (pySlope l : ℚ))

/-- Horizontal image center, Analyser.py line 146: img.shape[1] / 2,
a Python-2 integer division of the nonnegative width. -/
def imgXCenter (W : ℕ) : ℤ := ((W / 2 : ℕ) : ℤ)

/-- Right-lane condition, Analyser.py line 147: positive slope and both
endpoint x-coordinates strictly right of the image center. -/
def rightCond (W : ℕ) (p : ℤ × Seg) : Bool :=
  decide (0 < p.1) && decide (imgXCenter W < p.2.x1) && decide (imgXCenter W < p.2.x2)

/-- Left-lane condition, Analyser.py line 149: negative slope and both
endpoint x-coordinates strictly left of the image center. -/
def leftCond (W : ℕ) (p : ℤ × Seg) : Bool :=
  decide (p.1 < 0) && decide (p.2.x1 < imgXCenter W) && decide (p.2.x2 < imgXCenter W)

/-- First pass of __draw_lines (lines 121-137): keep the segments whose
slope passes the filter, paired with their slope, preserving order. -/
def filteredWithSlopes (lines : List Seg) : List (ℤ × Seg) :=
  lines.filterMap (fun l => if slopeOk l then some (pySlope l, l) else none)

/-- One step of the split loop at Analyser.py lines 144-150: a segment
goes to the right list, else (elif) to the left list, else nowhere. -/
def splitStep (W : ℕ) (p : ℤ × Seg) (acc : List Seg × List Seg) : List Seg × List Seg :=
  if rightCond W p then (p.2 :: acc.1, acc.2)
  else if leftCond W p then (acc.1, p.2 :: acc.2)
  else acc

/-- The right_lines and left_lines lists built by the two passes of
__draw_lines (Analyser.py lines 120-150), in source order. -/
def splitLanes (W : ℕ) (lines : List Seg) : List Seg × List Seg :=
  (filteredWithSlopes lines).foldr (splitStep W) ([], [])

/-- Classification outcome of a single segment. -/
inductive SegClass
  | left
  | right
  | discarded
deriving DecidableEq

/-- Per-segment classification implemented by the two passes of
__draw_lines: the slope filter (line 133) followed by the
right/elif-left split (lines 147-150). -/
def classifySeg (W : ℕ) (l : Seg) : SegClass :=
  if slopeOk l then
    if rightCond W (pySlope l, l) then SegClass.right
    else if leftCond W (pySlope l, l) then SegClass.left
    else SegClass.discarded
  else SegClass.discarded

/-- Modelled from the claim wording of C1: the slope as real (rational)
division (y2 - y1)/(x2 - x1), with the 999 sentinel when x2 = x1. -/
def ratSlope (l : Seg) : ℚ :=
  if l.x2 - l.x1 = 0 then 999 else ((l.y2 - l.y1 : ℤ) : ℚ) / ((l.x2 - l.x1 : ℤ) : ℚ)

/-- Modelled from the claim wording of C1: classification with the
real-division slope, for comparison against classifySeg. -/
def classifySpecSeg (W : ℕ) (l : Seg) : SegClass :=
  if (1 : ℚ)/2 < ratAbs (ratSlope l) then
    if 0 < ratSlope l ∧ imgXCenter W < l.x1 ∧ imgXCenter W < l.x2 then SegClass.right
    else if ratSlope l < 0 ∧ l.x1 < imgXCenter W ∧ l.x2 < imgXCenter W then SegClass.left
    else SegClass.discarded
  else SegClass.discarded

/-- Result of the per-side fit at Analyser.py lines 166-189: slope m,
intercept b, and the draw flag (the validity of the side). -/
structure Fit where
  m : ℚ
  b : ℚ
  draw : Bool
deriving DecidableEq

/-- Endpoint collection for one side, Analyser.py lines 154-164 and
173-183: each segment contributes its two endpoints, in order. -/
def sidePoints (segs : List Seg) : List (ℤ × ℤ) :=
  segs.foldr (fun l acc => (l.x1, l.y1) :: (l.x2, l.y2) :: acc) []

/-- Exact rational ordinary least squares for a degree-one fit, the
mathematical content of the np.polyfit calls at Analyser.py lines
167 and 186 (the source computes it in floating point). -/
def polyfitQ (pts : List (ℤ × ℤ)) : ℚ × ℚ :=
  let n : ℚ := pts.length
  let sx : ℚ := (pts.map (fun p => (p.1 : ℚ))).sum
  let sy : ℚ := (pts.map (fun p => (p.2 : ℚ))).sum
  let sxx : ℚ := (pts.map (fun p => (p.1 : ℚ) * (p.1 : ℚ))).sum
  let sxy : ℚ := (pts.map (fun p => (p.1 : ℚ) * (p.2 : ℚ))).sum
  let m : ℚ := (n * sxy - sx * sy) / (n * sxx - sx * sx)
  (m, (sy - m * sx) / n)

/-- Per-side fit, Analyser.py lines 166-170 (resp. 185-189): run the
regression when the point list is nonempty, otherwise fall back to
m = 1, b = 1 and clear the draw flag. -/
def fitSide (pts : List (ℤ × ℤ)) : Fit :=
  if 0 < pts.length then ⟨(polyfitQ pts).1, (polyfitQ pts).2, true⟩
  else ⟨1, 1, false⟩

/-- Number of regression invocations made by fitSide on the given
input, mirroring the branch at Analyser.py line 166 (resp. 185). -/
def regressionCallCount (pts : List (ℤ × ℤ)) : ℕ :=
  if 0 < pts.length then 1 else 0

/-- Python builtin int() on an exact rational: truncation toward zero,
used for the conversions at Analyser.py lines 203-208. -/
def pyInt (q : ℚ) : ℤ :=
  if q < 0 then ⌈q⌉ else ⌊q⌋

/-- Second scan row before conversion, Analyser.py line 194:
img.shape[0] * (1 - trap_height) with trap_height = 0.97. -/
def rowY2 (H : ℕ) : ℚ :=
  (H : ℚ) * (1 - 97/100)

/-- Endpoint extrapolation for one side, Analyser.py lines 196-208:
x = (y - b)/m at y = H and at the unconverted second row, each passed
through int(). -/
def extrap (H : ℕ) (f : Fit) : ℤ × ℤ :=
  (pyInt (((H : ℚ) - f.b) / f.m), pyInt ((rowY2 H - f.b) / f.m))

/-- The module-level coordinates of Analyser.py lines 34-36 and
217-223: right_x1_coord, left_x1_coord, y1_coord. -/
structure Coords where
  rightX1 : ℤ
  leftX1 : ℤ
  rowY1 : ℤ
deriving DecidableEq

/-- Initial values of the module-level coordinates,
Analyser.py lines 34-36. -/
def initCoords : Coords := ⟨1, 1, 1⟩

/-- Drawing decisions and endpoints produced by one __draw_lines call:
the two draw flags (lines 115-116, 170, 189) and the line endpoints of
lines 211-215. -/
structure DrawInfo where
  drawRight : Bool
  drawLeft : Bool
  rightX1 : ℤ
  rightX2 : ℤ
  leftX1 : ℤ
  leftX2 : ℤ
  rowY1 : ℤ
  rowY2i : ℤ
deriving DecidableEq

/-- The __draw_lines body, Analyser.py lines 110-223, as a function of
the frame height and width, the Hough output (None, empty, or a list of
segments) and the stored module-level coordinates.  A None or empty
input returns at lines 111-114 before any state update; otherwise the
segments are split, each side fitted, the endpoints extrapolated, and
the module-level coordinates overwritten (lines 217-223). -/
def drawLines (H W : ℕ) (lines : Option (List Seg)) (c : Coords) :
    Coords × Option DrawInfo :=
  match lines with
  | none => (c, none)
  | some ls =>
    if ls = [] then (c, none)
    else
      let fr := fitSide (sidePoints (splitLanes W ls).1)
      let fl := fitSide (sidePoints (splitLanes W ls).2)
      (⟨(extrap H fr).1, (extrap H fl).1, (H : ℤ)⟩,
       some ⟨fr.draw, fl.draw, (extrap H fr).1, (extrap H fr).2,
             (extrap H fl).1, (extrap H fl).2, (H : ℤ), pyInt (rowY2 H)⟩)

/-- Worker state that persists across frames: the stored coordinates
and the command throttle timer (Analyser.py lines 34-36 and 48). -/
structure AState where
  coords : Coords
  timer : ℚ
deriving DecidableEq

/-- Lane-center x, Analyser.py line 266: the Python-2 floor division
(right_x1_coord + left_x1_coord)/2. -/
def finalX (c : Coords) : ℤ :=
  Int.fdiv (c.rightX1 + c.leftX1) 2

/-- Steering token selection, Analyser.py lines 274-282: the outer
deadband test followed by the left/right split on the half width. -/
def steerToken (W : ℕ) (fx : ℤ) : String :=
  if fx < ((W / 2 : ℕ) : ℤ) - 20 ∨ ((W / 2 : ℕ) : ℤ) + 20 < fx then
    if fx < ((W / 2 : ℕ) : ℤ) then "4/" else "5/"
  else "1/1/"

/-- Modelled from the claim wording of C2: first the left test, then
the right test, otherwise straight. -/
def specToken (W : ℕ) (fx : ℤ) : String :=
  if fx < ((W / 2 : ℕ) : ℤ) - 20 then "4/"
  else if ((W / 2 : ℕ) : ℤ) + 20 < fx then "5/"
  else "1/1/"

/-- Core of __lane_assist, Analyser.py lines 241-285, for one frame:
run __draw_lines on the Hough output (updating the stored
coordinates), compute the lane center from the stored coordinates, and
emit one steering token when more than 300 ms have elapsed since the
stored timer, resetting the timer (lines 272-283).  The returned list
holds the commands put on the command queue this frame. -/
def laneAssist (H W : ℕ) (lines : Option (List Seg)) (now : ℚ) (s : AState) :
    AState × List String :=
  let c := (drawLines H W lines s.coords).1
  if 3/10 < now - s.timer then
    (⟨c, now⟩, [steerToken W (finalX c)])
  else
    (⟨c, s.timer⟩, [])

/-- Modelled from the claim wording of C5: the same per-frame state
update as drawLines except that a side whose fit is invalid keeps its
previously stored coordinate instead of receiving the fallback
extrapolation, so the lane-center computation never uses an invalid
side from the current frame. -/
def drawLinesKeepStale (H W : ℕ) (lines : Option (List Seg)) (c : Coords) : Coords :=
  match lines with
  | none => c
  | some ls =>
    if ls = [] then c
    else
      let fr := fitSide (sidePoints (splitLanes W ls).1)
      let fl := fitSide (sidePoints (splitLanes W ls).2)
      ⟨if fr.draw then (extrap H fr).1 else c.rightX1,
       if fl.draw then (extrap H fl).1 else c.leftX1, (H : ℤ)⟩

/-- Sequential processing of a list of frames, each given as its Hough
output and the wall-clock time at which the worker handles it; returns
the final state and the concatenated command output, modelling
successive iterations of the analyse loop in ANALYZE mode. -/
def runFrames (H W : ℕ) (frames : List (Option (List Seg) × ℚ)) (s : AState) :
    AState × List String :=
  match frames with
  | [] => (s, [])
  | f :: rest =>
    let r := laneAssist H W f.1 f.2 s
    let r2 := runFrames H W rest r.1
    (r2.1, r.2 ++ r2.2)

/-- Abstract interface to the vision-primitives collaborator used by
one worker iteration: frame shape, Hough line extraction
(__hough_lines up to the HoughLinesP call, line 231), and the
compositing of the overlay plus the marker circle
(lines 260-268). -/
structure Vision (α : Type) where
  shape : α → ℕ × ℕ
  extractLines : α → Option (List Seg)
  blendAndMark : α → Option DrawInfo → ℤ → ℤ → α

/-- Output of cv2.imencode as far as this model needs it: the codec
extension, the quality parameter, and the image handed in. -/
structure Encoded (α : Type) where
  codec : String
  quality : ℕ
  image : α

/-- The encode parameter set in __init__, Analyser.py line 47:
IMWRITE_JPEG_QUALITY 60. -/
def encodeParameter : ℕ := 60

/-- Model of cv2.imencode with the .jpg extension, Analyser.py
lines 64-65 and 71-72. -/
def imencodeJpg {α : Type} (q : ℕ) (img : α) : Encoded α :=
  ⟨".jpg", q, img⟩

/-- Full __lane_assist on a frame value: extract lines, update state
through the core, and build the annotated image via the collaborator
(blend plus marker circle at (final_x, y1_coord), lines 260-268). -/
def laneAssistFrame {α : Type} (V : Vision α) (frame : α) (now : ℚ) (s : AState) :
    α × AState × List String :=
  let H := (V.shape frame).1
  let W := (V.shape frame).2
  let d := (drawLines H W (V.extractLines frame) s.coords).2
  let r := laneAssist H W (V.extractLines frame) now s
  (V.blendAndMark frame d (finalX r.1.coords) r.1.coords.rowY1, r.1, r.2)

/-- One iteration of the analyse worker loop, Analyser.py lines 62-76,
after the frame has been decoded: in ANALYZE mode run __lane_assist
and encode its annotated result; in BYPASS mode encode the held frame
unchanged and emit nothing.  Returns the successor state, the payload
put on the analysed-frame queue, and the commands put on the command
queue. -/
def analyseIter {α : Type} (V : Vision α) (analysing : Bool) (frame : α)
    (now : ℚ) (s : AState) : AState × Encoded α × List String :=
  if analysing then
    ((laneAssistFrame V frame now s).2.1,
     imencodeJpg encodeParameter (laneAssistFrame V frame now s).1,
     (laneAssistFrame V frame now s).2.2)
  else
    (s, imencodeJpg encodeParameter frame, [])

/-- Concrete segment used by the counterexamples: slope 5, both
endpoint x-coordinates right of center 50 on a width-100 frame. -/
def segR : Seg := ⟨60, 0, 80, 100⟩

/-- Concrete segment used by the counterexamples: slope -5, both
endpoint x-coordinates left of center 50 on a width-100 frame. -/
def segL : Seg := ⟨20, 100, 40, 0⟩

/-- Concrete segment used by the counterexamples: its two-point fit is
the exact line y = 10 x - 27, and both endpoint x-coordinates lie
right of center 2 on a width-5 frame. -/
def segS : Seg := ⟨3, 3, 4, 13⟩

lemma ratAbs_eq_abs (q : ℚ) : ratAbs q = |q| := by
  unfold ratAbs
  split
  · exact (abs_of_neg (by assumption)).symm
  · exact (abs_of_nonneg (not_lt.mp (by assumption))).symm

lemma slopeOk_iff_ne_zero (l : Seg) : slopeOk l = true ↔ pySlope l ≠ 0 := by
  rw [slopeOk, decide_eq_true_eq, ratAbs_eq_abs]
  constructor
  · intro h h0
    rw [h0] at h
    norm_num at h
  · intro h
    have h1 : 1 ≤ |pySlope l| := Int.one_le_abs (by omega)
    have h2 : (1 : ℚ) ≤ |(pySlope l : ℚ)| := by
      rw [← Int.cast_abs]
      exact_mod_cast h1
    linarith

lemma filteredWithSlopes_nil : filteredWithSlopes [] = [] := rfl

lemma filteredWithSlopes_cons (l : Seg) (ls : List Seg) :
    filteredWithSlopes (l :: ls) =
      if slopeOk l then (pySlope l, l) :: filteredWithSlopes ls
      else filteredWithSlopes ls := by
  simp only [filteredWithSlopes, List.filterMap_cons]
  by_cases h : slopeOk l <;> simp [h]

lemma splitLanes_nil (W : ℕ) : splitLanes W [] = ([], []) := rfl

lemma splitLanes_cons (W : ℕ) (l : Seg) (ls : List Seg) :
    splitLanes W (l :: ls) =
      if slopeOk l then splitStep W (pySlope l, l) (splitLanes W ls)
      else splitLanes W ls := by
  simp only [splitLanes, filteredWithSlopes_cons]
  by_cases h : slopeOk l <;> simp [h]

lemma classifySeg_right_iff (W : ℕ) (l : Seg) :
    classifySeg W l = SegClass.right ↔
      (slopeOk l ∧ rightCond W (pySlope l, l)) := by
  unfold classifySeg
  by_cases h1 : slopeOk l <;>
    by_cases h2 : rightCond W (pySlope l, l) <;>
      by_cases h3 : leftCond W (pySlope l, l) <;>
        simp [h1, h2, h3]

lemma classifySeg_left_iff (W : ℕ) (l : Seg) :
    classifySeg W l = SegClass.left ↔
      (slopeOk l ∧ ¬ rightCond W (pySlope l, l) ∧ leftCond W (pySlope l, l)) := by
  unfold classifySeg
  by_cases h1 : slopeOk l <;>
    by_cases h2 : rightCond W (pySlope l, l) <;>
      by_cases h3 : leftCond W (pySlope l, l) <;>
        simp [h1, h2, h3]

lemma right_left_exclusive (W : ℕ) (l : Seg) :
    rightCond W (pySlope l, l) = true → leftCond W (pySlope l, l) = true → False := by
  simp only [rightCond, leftCond, Bool.and_eq_true, decide_eq_true_eq]
  intro h1 h2
  omega

lemma splitLanes_fst_eq_filter (W : ℕ) (lines : List Seg) :
    (splitLanes W lines).1 =
      lines.filter (fun l => decide (classifySeg W l = SegClass.right)) := by
  induction lines with
  | nil => rfl
  | cons l ls ih =>
    rw [splitLanes_cons, List.filter_cons]
    by_cases h1 : slopeOk l
    · by_cases h2 : rightCond W (pySlope l, l)
      · have hc : classifySeg W l = SegClass.right :=
          (classifySeg_right_iff W l).mpr ⟨h1, h2⟩
        simp [splitStep, h1, h2, hc, ih]
      · have hc : classifySeg W l ≠ SegClass.right := by
          simp only [ne_eq, classifySeg_right_iff]
          tauto
        by_cases h3 : leftCond W (pySlope l, l) <;>
          simp [splitStep, h1, h2, h3, hc, ih]
    · have hc : classifySeg W l ≠ SegClass.right := by
        simp only [ne_eq, classifySeg_right_iff]
        tauto
      simp [h1, hc, ih]

lemma splitLanes_snd_eq_filter (W : ℕ) (lines : List Seg) :
    (splitLanes W lines).2 =
      lines.filter (fun l => decide (classifySeg W l = SegClass.left)) := by
  induction lines with
  | nil => rfl
  | cons l ls ih =>
    rw [splitLanes_cons, List.filter_cons]
    by_cases h1 : slopeOk l
    · by_cases h2 : rightCond W (pySlope l, l)
      · have hc : classifySeg W l ≠ SegClass.left := by
          simp only [ne_eq, classifySeg_left_iff]
          tauto
        simp [splitStep, h1, h2, hc, ih]
      · by_cases h3 : leftCond W (pySlope l, l)
        · have hc : classifySeg W l = SegClass.left :=
            (classifySeg_left_iff W l).mpr ⟨h1, h2, h3⟩
          simp [splitStep, h1, h2, h3, hc, ih]
        · have hc : classifySeg W l ≠ SegClass.left := by
            simp only [ne_eq, classifySeg_left_iff]
            tauto
          simp [splitStep, h1, h2, h3, hc, ih]
    · have hc : classifySeg W l ≠ SegClass.left := by
        simp only [ne_eq, classifySeg_left_iff]
        tauto
      simp [h1, hc, ih]

lemma pyInt_intCast (n : ℤ) : pyInt (n : ℚ) = n := by
  unfold pyInt
  split <;> simp

lemma abs_pyInt_sub_lt_one (q : ℚ) : |(pyInt q : ℚ) - q| < 1 := by
  unfold pyInt
  split
  · have h1 := Int.le_ceil q
    have h2 := Int.ceil_lt_add_one q
    rw [abs_sub_lt_iff]
    constructor <;> linarith
  · have h1 := Int.floor_le q
    have h2 := Int.sub_one_lt_floor q
    rw [abs_sub_lt_iff]
    constructor <;> linarith

lemma extrap_fallback_fst (H : ℕ) (d : Bool) : (extrap H ⟨1, 1, d⟩).1 = (H : ℤ) - 1 := by
  unfold extrap
  have h : ((H : ℚ) - 1) / 1 = (((H : ℤ) - 1 : ℤ) : ℚ) := by
    push_cast
    ring
  simp only [h, pyInt_intCast]

lemma drawLines_none (H W : ℕ) (c : Coords) : drawLines H W none c = (c, none) := rfl

lemma drawLines_some_nil (H W : ℕ) (c : Coords) :
    drawLines H W (some []) c = (c, none) := by
  simp [drawLines]

lemma drawLines_coords_of_ne_nil (H W : ℕ) (ls : List Seg) (c : Coords) (h : ls ≠ []) :
    (drawLines H W (some ls) c).1 =
      ⟨(extrap H (fitSide (sidePoints (splitLanes W ls).1))).1,
       (extrap H (fitSide (sidePoints (splitLanes W ls).2))).1, (H : ℤ)⟩ := by
  simp [drawLines, h]

lemma laneAssist_coords (H W : ℕ) (lines : Option (List Seg)) (now : ℚ) (s : AState) :
    (laneAssist H W lines now s).1.coords = (drawLines H W lines s.coords).1 := by
  unfold laneAssist
  by_cases h : (3 : ℚ)/10 < now - s.timer <;> simp [h]

lemma laneAssist_empty_coords (H W : ℕ) (lines : Option (List Seg)) (now : ℚ)
    (s : AState) (h : lines = none ∨ lines = some []) :
    (laneAssist H W lines now s).1.coords = s.coords := by
  rcases h with h | h <;>
    simp [laneAssist_coords, h, drawLines_none, drawLines_some_nil]

lemma laneAssist_cmds (H W : ℕ) (lines : Option (List Seg)) (now : ℚ) (s : AState) :
    (laneAssist H W lines now s).2 = [] ∨
      (laneAssist H W lines now s).2 =
        [steerToken W (finalX (drawLines H W lines s.coords).1)] := by
  unfold laneAssist
  by_cases h : (3 : ℚ)/10 < now - s.timer <;> simp [h]

lemma steerToken_eq_specToken (W : ℕ) (fx : ℤ) : steerToken W fx = specToken W fx := by
  unfold steerToken specToken
  split_ifs <;> first | rfl | omega

/-- C1 (corrected): classifySeg assigns every segment exactly one of
LEFT, RIGHT, DISCARDED, and the rule uses the Python-2 floor-division
slope, not real division: the first two conjuncts identify the
right_lines and left_lines lists of the source with per-segment
classification; the next two characterize RIGHT and LEFT by the
eligibility test |slope| > 0.5 on the floor-divided integer slope
(sentinel 999 when x2 = x1) together with sign and position; the last
states that everything else is discarded. -/
theorem C1_segment_classification (W : ℕ) (lines : List Seg) (l : Seg) :
    (splitLanes W lines).1 =
      lines.filter (fun l => decide (classifySeg W l = SegClass.right)) ∧
    (splitLanes W lines).2 =
      lines.filter (fun l => decide (classifySeg W l = SegClass.left)) ∧
    (classifySeg W l = SegClass.right ↔
      ((1 : ℚ)/2 < |(pySlope l : ℚ)| ∧ 0 < pySlope l ∧
        imgXCenter W < l.x1 ∧ imgXCenter W < l.x2)) ∧
    (classifySeg W l = SegClass.left ↔
      ((1 : ℚ)/2 < |(pySlope l : ℚ)| ∧ pySlope l < 0 ∧
        l.x1 < imgXCenter W ∧ l.x2 < imgXCenter W)) ∧
    (classifySeg W l = SegClass.discarded ↔
      (classifySeg W l ≠ SegClass.right ∧ classifySeg W l ≠ SegClass.left)) := by
  refine ⟨splitLanes_fst_eq_filter W lines, splitLanes_snd_eq_filter W lines, ?_, ?_, ?_⟩
  · rw [classifySeg_right_iff]
    simp only [slopeOk, rightCond, Bool.and_eq_true, decide_eq_true_eq, ratAbs_eq_abs]
    tauto
  · rw [classifySeg_left_iff]
    simp only [slopeOk, rightCond, leftCond, Bool.and_eq_true, decide_eq_true_eq,
      ratAbs_eq_abs]
    constructor
    · rintro ⟨hok, -, ⟨hs, h1⟩, h2⟩
      exact ⟨hok, hs, h1, h2⟩
    · rintro ⟨hok, hs, h1, h2⟩
      refine ⟨hok, ?_, ⟨hs, h1⟩, h2⟩
      rintro ⟨⟨hpos, -⟩, -⟩
      omega
  · rcases h : classifySeg W l <;> simp [h]

/-- C1 counterexample: the segment (10, 10, 20, 9) on a width-100
frame has real slope -1/10, so the claim as stated discards it
(|slope| is not above 0.5); the Python-2 code floor-divides -1 by 10
to -1 and classifies the segment LEFT. -/
theorem C1_counterexample :
    classifySeg 100 ⟨10, 10, 20, 9⟩ = SegClass.left ∧
    classifySpecSeg 100 ⟨10, 10, 20, 9⟩ = SegClass.discarded ∧
    SegClass.left ≠ SegClass.discarded := by
  have hok : slopeOk ⟨10, 10, 20, 9⟩ = true := by
    rw [slopeOk_iff_ne_zero]
    decide
  have hr : rightCond 100 (pySlope ⟨10, 10, 20, 9⟩, ⟨10, 10, 20, 9⟩) = false := by
    decide
  have hl : leftCond 100 (pySlope ⟨10, 10, 20, 9⟩, ⟨10, 10, 20, 9⟩) = true := by
    decide
  have hrs : ratSlope ⟨10, 10, 20, 9⟩ = -1/10 := by
    simp only [ratSlope]
    norm_num
  have habs : ¬ ((1 : ℚ)/2 < ratAbs (ratSlope ⟨10, 10, 20, 9⟩)) := by
    rw [hrs]
    norm_num [ratAbs]
  refine ⟨?_, ?_, by decide⟩
  · simp [classifySeg, hok, hr, hl]
  · unfold classifySpecSeg
    rw [if_neg habs]

/-- C2 (confirmed): whenever the 300 ms throttle permits emitting a
command, the single emitted token is determined by the lane-center x
and the frame width exactly as the claim orders the cases: left when
the center is below W/2 - 20, right when above W/2 + 20, straight
inside the deadband (specToken spells out the claim wording; the code
path steerToken is proved equal to it pointwise). -/
theorem C2_token_selection (H W : ℕ) (lines : Option (List Seg)) (now : ℚ)
    (s : AState) (h : (3 : ℚ)/10 < now - s.timer) :
    (laneAssist H W lines now s).2 =
      [specToken W (finalX (drawLines H W lines s.coords).1)] := by
  simp [laneAssist, h, steerToken_eq_specToken]

/-- C2 witness: a concrete frame at time 1 with throttle timer 0. -/
theorem C2_witness :
    (3 : ℚ)/10 < 1 - (0 : ℚ) ∧
    (laneAssist 100 100 none 1 ⟨initCoords, 0⟩).2 =
      [specToken 100 (finalX (drawLines 100 100 none initCoords).1)] :=
  ⟨by norm_num, C2_token_selection 100 100 none 1 ⟨initCoords, 0⟩ (by norm_num)⟩

/-- C3 counterexample: at exactly 300 ms elapsed (timer 0, current
time 3/10) it is not the case that less than 300 ms have elapsed, yet
the code emits no command, contradicting the claim's demand that
exactly one command be emitted in that case (the code requires a
strictly larger elapsed time). -/
theorem C3_counterexample :
    ¬ (¬ ((3 : ℚ)/10 - 0 < 3/10) →
        ((laneAssist 100 100 none (3/10) ⟨initCoords, 0⟩).2).length = 1) := by
  intro h
  have h2 := h (by norm_num)
  have hcond : ¬ ((3 : ℚ)/10 < 3/10 - (⟨initCoords, (0 : ℚ)⟩ : AState).timer) := by
    norm_num
  simp [laneAssist, hcond] at h2

/-- C3 (corrected): if at most 300 ms have elapsed since the stored
timer, no command is emitted and the timer is unchanged; if strictly
more than 300 ms have elapsed, exactly one command is emitted and the
timer is reset to the current time; consequently a frame processed
after an emitting frame can itself emit only when strictly more than
300 ms have passed since that emission, so two commands never fall in
one 300 ms window. -/
theorem C3_throttle (H W : ℕ) (lines lines2 : Option (List Seg)) (now now2 : ℚ)
    (s : AState) :
    (now - s.timer ≤ 3/10 →
      (laneAssist H W lines now s).2 = [] ∧
      (laneAssist H W lines now s).1.timer = s.timer) ∧
    ((3 : ℚ)/10 < now - s.timer →
      ((laneAssist H W lines now s).2).length = 1 ∧
      (laneAssist H W lines now s).1.timer = now) ∧
    ((3 : ℚ)/10 < now - s.timer →
      (laneAssist H W lines2 now2 (laneAssist H W lines now s).1).2 ≠ [] →
      (3 : ℚ)/10 < now2 - now) := by
  refine ⟨?_, ?_, ?_⟩
  · intro h
    have hc : ¬ ((3 : ℚ)/10 < now - s.timer) := by linarith
    simp [laneAssist, hc]
  · intro h
    simp [laneAssist, h]
  · intro h h2
    by_contra hno
    set s1 := (laneAssist H W lines now s).1 with hs1
    have ht : s1.timer = now := by
      rw [hs1]
      simp [laneAssist, h]
    have hc : ¬ ((3 : ℚ)/10 < now2 - s1.timer) := by
      rw [ht]
      exact hno
    exact h2 (by simp [laneAssist, hc])

/-- C3 witness: more than 300 ms elapsed emits exactly one command and
resets the timer. -/
theorem C3_witness :
    (3 : ℚ)/10 < 1 - (0 : ℚ) ∧
    ((laneAssist 100 100 none 1 ⟨initCoords, 0⟩).2).length = 1 ∧
    (laneAssist 100 100 none 1 ⟨initCoords, 0⟩).1.timer = 1 :=
  ⟨by norm_num,
   ((C3_throttle 100 100 none none 1 1 ⟨initCoords, 0⟩).2.1 (by norm_num)).1,
   ((C3_throttle 100 100 none none 1 1 ⟨initCoords, 0⟩).2.1 (by norm_num)).2⟩

lemma sidePoints_nil : sidePoints [] = [] := rfl

lemma fitSide_nil : fitSide [] = ⟨1, 1, false⟩ := rfl

lemma split_RL : splitLanes 100 [segR, segL] = ([segR], [segL]) := by
  have o1 : slopeOk segR = true := by
    rw [slopeOk_iff_ne_zero]
    decide
  have o2 : slopeOk segL = true := by
    rw [slopeOk_iff_ne_zero]
    decide
  have r1 : rightCond 100 (pySlope segR, segR) = true := by decide
  have r2 : rightCond 100 (pySlope segL, segL) = false := by decide
  have l2 : leftCond 100 (pySlope segL, segL) = true := by decide
  rw [splitLanes_cons, splitLanes_cons, splitLanes_nil]
  simp [o1, o2, splitStep, r1, r2, l2]

lemma split_R : splitLanes 100 [segR] = ([segR], []) := by
  have o1 : slopeOk segR = true := by
    rw [slopeOk_iff_ne_zero]
    decide
  have r1 : rightCond 100 (pySlope segR, segR) = true := by decide
  rw [splitLanes_cons, splitLanes_nil]
  simp [o1, splitStep, r1]

lemma split_S : splitLanes 5 [segS] = ([segS], []) := by
  have o1 : slopeOk segS = true := by
    rw [slopeOk_iff_ne_zero]
    decide
  have r1 : rightCond 5 (pySlope segS, segS) = true := by decide
  rw [splitLanes_cons, splitLanes_nil]
  simp [o1, splitStep, r1]

lemma polyfit_R : polyfitQ [(60, 0), (80, 100)] = (5, -300) := by
  simp only [polyfitQ, List.map_cons, List.map_nil, List.sum_cons, List.sum_nil,
    List.length_cons, List.length_nil, Prod.mk.injEq]
  norm_num

lemma polyfit_L : polyfitQ [(20, 100), (40, 0)] = (-5, 200) := by
  simp only [polyfitQ, List.map_cons, List.map_nil, List.sum_cons, List.sum_nil,
    List.length_cons, List.length_nil, Prod.mk.injEq]
  norm_num

lemma polyfit_S : polyfitQ [(3, 3), (4, 13)] = (10, -27) := by
  simp only [polyfitQ, List.map_cons, List.map_nil, List.sum_cons, List.sum_nil,
    List.length_cons, List.length_nil, Prod.mk.injEq]
  norm_num

lemma fit_R : fitSide (sidePoints [segR]) = ⟨5, -300, true⟩ := by
  have hp : sidePoints [segR] = [(60, 0), (80, 100)] := rfl
  rw [hp]
  simp [fitSide, polyfit_R]

lemma fit_L : fitSide (sidePoints [segL]) = ⟨-5, 200, true⟩ := by
  have hp : sidePoints [segL] = [(20, 100), (40, 0)] := rfl
  rw [hp]
  simp [fitSide, polyfit_L]

lemma fit_S : fitSide (sidePoints [segS]) = ⟨10, -27, true⟩ := by
  have hp : sidePoints [segS] = [(3, 3), (4, 13)] := rfl
  rw [hp]
  simp [fitSide, polyfit_S]

lemma extrap_R1 : (extrap 100 ⟨5, -300, true⟩).1 = 80 := by
  simp only [extrap]
  have h : (((100 : ℕ) : ℚ) - (-300 : ℚ)) / 5 = ((80 : ℤ) : ℚ) := by norm_num
  rw [h, pyInt_intCast]

lemma extrap_L1 : (extrap 100 ⟨-5, 200, true⟩).1 = 20 := by
  simp only [extrap]
  have h : (((100 : ℕ) : ℚ) - (200 : ℚ)) / (-5) = ((20 : ℤ) : ℚ) := by norm_num
  rw [h, pyInt_intCast]

lemma extrap_S1 : (extrap 100 ⟨10, -27, true⟩).1 = 12 := by
  simp only [extrap]
  have h : (((100 : ℕ) : ℚ) - (-27 : ℚ)) / 10 = 127/10 := by norm_num
  rw [h]
  norm_num [pyInt]

lemma drawLines_RL (c : Coords) :
    (drawLines 100 100 (some [segR, segL]) c).1 = ⟨80, 20, 100⟩ := by
  rw [drawLines_coords_of_ne_nil 100 100 [segR, segL] c (by simp)]
  simp [split_RL, fit_R, fit_L, extrap_R1, extrap_L1]

lemma drawLines_R (c : Coords) :
    (drawLines 100 100 (some [segR]) c).1 = ⟨80, 99, 100⟩ := by
  rw [drawLines_coords_of_ne_nil 100 100 [segR] c (by simp)]
  have hex : (extrap 100 (⟨1, 1, false⟩ : Fit)).1 = 99 := by
    rw [extrap_fallback_fst]
    decide
  simp [split_R, fit_R, extrap_R1, sidePoints_nil, fitSide_nil, hex]

/-- C4 counterexample: the same frame with no extracted segments,
processed once from the fresh process state and once from the state
left by a frame containing one right and one left segment, yields two
different commands; the previously stored marker coordinates therefore
influence the computed command for a single frame, contradicting the
claim. -/
theorem C4_counterexample :
    (laneAssist 100 100 none 2 ⟨initCoords, 0⟩).2 = ["4/"] ∧
    (laneAssist 100 100 none 2
        (laneAssist 100 100 (some [segR, segL]) 1 ⟨initCoords, 0⟩).1).2 = ["1/1/"] ∧
    (["4/"] : List String) ≠ ["1/1/"] := by
  set s1 := (laneAssist 100 100 (some [segR, segL]) 1 (⟨initCoords, 0⟩ : AState)).1
    with hs1
  have hco : s1.coords = ⟨80, 20, 100⟩ := by
    rw [hs1, laneAssist_coords]
    exact drawLines_RL initCoords
  have htm : s1.timer = 1 := by
    rw [hs1]
    simp only [laneAssist]
    norm_num
  refine ⟨?_, ?_, by decide⟩
  · have hres : (laneAssist 100 100 none 2 (⟨initCoords, 0⟩ : AState)).2 =
        [steerToken 100 (finalX initCoords)] := by
      simp only [laneAssist, drawLines_none]
      norm_num
    rw [hres]
    decide
  · have hres : (laneAssist 100 100 none 2 s1).2 =
        [steerToken 100 (finalX s1.coords)] := by
      simp only [laneAssist, drawLines_none, htm]
      norm_num
    rw [hres, hco]
    decide

/-- C4 (corrected): processing the same decoded frame twice in ANALYZE
mode is idempotent: the lane center (hence the computed steering
token) after the repeated run equals the one after the first run, and
for a frame with at least one extracted segment the resulting stored
coordinates are independent of all prior state; however, for a frame
with no extracted segments the command is computed from previously
stored coordinates (see the counterexample), so the claim's clause
that no carried state influences a single frame's command is false. -/
theorem C4_idempotence (H W : ℕ) (lines : Option (List Seg)) (now now2 : ℚ)
    (s : AState) :
    finalX ((laneAssist H W lines now2 (laneAssist H W lines now s).1).1.coords) =
      finalX ((laneAssist H W lines now s).1.coords) ∧
    steerToken W
        (finalX ((laneAssist H W lines now2 (laneAssist H W lines now s).1).1.coords)) =
      steerToken W (finalX ((laneAssist H W lines now s).1.coords)) ∧
    (∀ ls : List Seg, lines = some ls → ls ≠ [] →
      ∀ s2 : AState,
        (laneAssist H W lines now s).1.coords =
          (laneAssist H W lines now s2).1.coords) := by
  have hcore : (drawLines H W lines ((drawLines H W lines s.coords).1)).1 =
      (drawLines H W lines s.coords).1 := by
    cases lines with
    | none => rfl
    | some ls =>
      by_cases h : ls = []
      · subst h
        rw [drawLines_some_nil, drawLines_some_nil]
      · rw [drawLines_coords_of_ne_nil _ _ _ _ h, drawLines_coords_of_ne_nil _ _ _ _ h]
  refine ⟨?_, ?_, ?_⟩
  · simp only [laneAssist_coords]
    rw [hcore]
  · simp only [laneAssist_coords]
    rw [hcore]
  · intro ls hl hne s2
    subst hl
    simp only [laneAssist_coords]
    rw [drawLines_coords_of_ne_nil _ _ _ _ hne, drawLines_coords_of_ne_nil _ _ _ _ hne]

/-- C4 witness: a frame with one segment gives the same stored
coordinates from two different prior states. -/
theorem C4_witness :
    (some [segR] : Option (List Seg)) = some [segR] ∧ ([segR] : List Seg) ≠ [] ∧
    (laneAssist 100 100 (some [segR]) 1 ⟨⟨7, 9, 11⟩, 0⟩).1.coords =
      (laneAssist 100 100 (some [segR]) 1 ⟨initCoords, 5⟩).1.coords :=
  ⟨rfl, by decide,
   (C4_idempotence 100 100 (some [segR]) 1 1 ⟨⟨7, 9, 11⟩, 0⟩).2.2
     [segR] rfl (by decide) ⟨initCoords, 5⟩⟩

/-- C5 counterexample: a frame whose only segment is classified RIGHT
leaves the left side invalid (no segments), and no left line is drawn;
yet the stored left coordinate is overwritten with the fallback
extrapolation 99 = H - 1 and the lane-center computation uses it
(center 89), instead of leaving the stored coordinate 5 untouched as
the claim demands (which would give center 42). -/
theorem C5_counterexample :
    (splitLanes 100 [segR]).2 = [] ∧
    ((drawLines 100 100 (some [segR]) ⟨1, 5, 1⟩).2).map (fun d => d.drawLeft) =
      some false ∧
    (drawLines 100 100 (some [segR]) ⟨1, 5, 1⟩).1.leftX1 = 99 ∧
    finalX (drawLines 100 100 (some [segR]) ⟨1, 5, 1⟩).1 = 89 ∧
    finalX (drawLinesKeepStale 100 100 (some [segR]) ⟨1, 5, 1⟩) = 42 ∧
    (89 : ℤ) ≠ 42 := by
  have h2 : (splitLanes 100 [segR]).2 = [] := by rw [split_R]
  have hfl : fitSide (sidePoints (splitLanes 100 [segR]).2) = (⟨1, 1, false⟩ : Fit) := by
    rw [split_R]
    rfl
  have hco := drawLines_R ⟨1, 5, 1⟩
  refine ⟨h2, ?_, ?_, ?_, ?_, by decide⟩
  · simp [drawLines, hfl]
  · rw [hco]
  · rw [hco]
    decide
  · have hks : drawLinesKeepStale 100 100 (some [segR]) ⟨1, 5, 1⟩ = ⟨80, 5, 100⟩ := by
      simp [drawLinesKeepStale, split_R, fit_R, extrap_R1, sidePoints_nil, fitSide_nil]
    rw [hks]
    decide

/-- C5 (corrected): a side with no classified segments this frame is
never drawn; but whenever the raw segment list is non-empty, that
side's stored coordinate is overwritten with the fallback
extrapolation (H - b)/m at m = 1, b = 1, i.e. H - 1, and the
lane-center computation uses that fallback value rather than ignoring
the invalid side. -/
theorem C5_invalid_side (H W : ℕ) (ls : List Seg) (c : Coords) (h : ls ≠ []) :
    ((splitLanes W ls).2 = [] →
      ((drawLines H W (some ls) c).2).map (fun d => d.drawLeft) = some false ∧
      (drawLines H W (some ls) c).1.leftX1 = (H : ℤ) - 1 ∧
      finalX (drawLines H W (some ls) c).1 =
        Int.fdiv ((drawLines H W (some ls) c).1.rightX1 + ((H : ℤ) - 1)) 2) ∧
    ((splitLanes W ls).1 = [] →
      ((drawLines H W (some ls) c).2).map (fun d => d.drawRight) = some false ∧
      (drawLines H W (some ls) c).1.rightX1 = (H : ℤ) - 1 ∧
      finalX (drawLines H W (some ls) c).1 =
        Int.fdiv (((H : ℤ) - 1) + (drawLines H W (some ls) c).1.leftX1) 2) := by
  constructor
  · intro h2
    have hfl : fitSide (sidePoints (splitLanes W ls).2) = (⟨1, 1, false⟩ : Fit) := by
      rw [h2]
      rfl
    refine ⟨?_, ?_, ?_⟩
    · simp [drawLines, h, hfl]
    · rw [drawLines_coords_of_ne_nil _ _ _ _ h]
      simp [hfl, extrap_fallback_fst]
    · rw [drawLines_coords_of_ne_nil _ _ _ _ h]
      simp [finalX, hfl, extrap_fallback_fst]
  · intro h2
    have hfr : fitSide (sidePoints (splitLanes W ls).1) = (⟨1, 1, false⟩ : Fit) := by
      rw [h2]
      rfl
    refine ⟨?_, ?_, ?_⟩
    · simp [drawLines, h, hfr]
    · rw [drawLines_coords_of_ne_nil _ _ _ _ h]
      simp [hfr, extrap_fallback_fst]
    · rw [drawLines_coords_of_ne_nil _ _ _ _ h]
      simp [finalX, hfr, extrap_fallback_fst]

/-- C5 witness: concrete frame with only a right segment. -/
theorem C5_witness :
    ([segR] : List Seg) ≠ [] ∧ (splitLanes 100 [segR]).2 = [] ∧
    (drawLines 100 100 (some [segR]) initCoords).1.leftX1 = (100 : ℤ) - 1 := by
  have h2 : (splitLanes 100 [segR]).2 = [] := by rw [split_R]
  exact ⟨by decide, h2,
    ((C5_invalid_side 100 100 [segR] initCoords (by decide)).1 h2).2.1⟩

/-- C6 (confirmed): the lane fit applied to an empty segment sequence
returns the hard-coded fallback m = 1, b = 1 with the draw flag false
(the side is invalid), and the regression branch is executed zero
times. -/
theorem C6_empty_fit :
    fitSide (sidePoints []) = ⟨1, 1, false⟩ ∧
    regressionCallCount (sidePoints []) = 0 ∧
    fitSide [] = ⟨1, 1, false⟩ ∧
    regressionCallCount [] = 0 :=
  ⟨rfl, rfl, rfl, rfl⟩

/-- C7 counterexample: the two-point fit through (3,3) and (4,13) is
exactly y = 10 x - 27; at row y = 100 the exact abscissa is 12.7, the
nearest integer is 13, but the code computes int(12.7) = 12 (and the
full pipeline stores 12), refuting rounding to nearest. -/
theorem C7_counterexample :
    polyfitQ [(3, 3), (4, 13)] = (10, -27) ∧
    (extrap 100 ⟨10, -27, true⟩).1 = 12 ∧
    (drawLines 100 5 (some [segS]) initCoords).1.rightX1 = 12 ∧
    round (((100 : ℚ) - (-27)) / 10) = 13 ∧
    (12 : ℤ) ≠ 13 := by
  refine ⟨polyfit_S, extrap_S1, ?_, ?_, by decide⟩
  · rw [drawLines_coords_of_ne_nil 100 5 [segS] initCoords (by simp)]
    simp [split_S, fit_S, extrap_S1]
  · have h : ((100 : ℚ) - (-27)) / 10 = 127/10 := by norm_num
    rw [h, round_eq]
    norm_num

/-- C7 (corrected): for a side with fit y = m x + b the extrapolated
endpoints are taken at row y1 = H and at the row H (1 - 0.97), and
each x-coordinate is (y - b)/m converted by Python int(), which
truncates toward zero instead of rounding to nearest; the truncation
error is nevertheless below one pixel. -/
theorem C7_extrapolation (H : ℕ) (f : Fit) (h : f.m ≠ 0) :
    (extrap H f).1 = pyInt (((H : ℚ) - f.b) / f.m) ∧
    |((extrap H f).1 : ℚ) - ((H : ℚ) - f.b) / f.m| < 1 ∧
    (extrap H f).2 = pyInt ((rowY2 H - f.b) / f.m) ∧
    |((extrap H f).2 : ℚ) - (rowY2 H - f.b) / f.m| < 1 ∧
    rowY2 H = (H : ℚ) * (1 - 97/100) :=
  ⟨rfl, abs_pyInt_sub_lt_one _, rfl, abs_pyInt_sub_lt_one _, rfl⟩

/-- C7 witness: the fit y = 10 x - 27 at frame height 100. -/
theorem C7_witness :
    ((⟨10, -27, true⟩ : Fit).m ≠ 0) ∧
    |((extrap 100 ⟨10, -27, true⟩).1 : ℚ) -
        (((100 : ℕ) : ℚ) - (⟨10, -27, true⟩ : Fit).b) / (⟨10, -27, true⟩ : Fit).m| < 1 :=
  ⟨by norm_num, (C7_extrapolation 100 ⟨10, -27, true⟩ (by norm_num)).2.1⟩

/-- C8 (confirmed): in both ANALYZE and BYPASS modes the payload put
on the annotated-frame channel is produced by the jpg codec with the
quality parameter configured in init, which is 60. -/
theorem C8_payload_codec {α : Type} (V : Vision α) (analysing : Bool) (frame : α)
    (now : ℚ) (s : AState) :
    ((analyseIter V analysing frame now s).2.1).codec = ".jpg" ∧
    ((analyseIter V analysing frame now s).2.1).quality = encodeParameter ∧
    encodeParameter = 60 := by
  cases analysing <;> exact ⟨rfl, rfl, rfl⟩

/-- C9 (confirmed): with the per-iteration mode flag clear (BYPASS)
the iteration leaves the worker state untouched (so none of the
lane-assist chain runs), re-encodes the held frame unchanged at
quality 60, and emits no command. -/
theorem C9_bypass {α : Type} (V : Vision α) (frame : α) (now : ℚ) (s : AState) :
    analyseIter V false frame now s = (s, ⟨".jpg", 60, frame⟩, []) := rfl

lemma runFrames_empty (H W : ℕ) (frames : List (Option (List Seg) × ℚ)) (s : AState)
    (hf : ∀ f ∈ frames, f.1 = none ∨ f.1 = some ([] : List Seg)) :
    (runFrames H W frames s).1.coords = s.coords ∧
    (∀ cmd ∈ (runFrames H W frames s).2, cmd = steerToken W (finalX s.coords)) := by
  induction frames generalizing s with
  | nil => simp [runFrames]
  | cons f rest ih =>
    have hf1 : f.1 = none ∨ f.1 = some [] := hf f (by simp)
    have hfr : ∀ g ∈ rest, g.1 = none ∨ g.1 = some ([] : List Seg) :=
      fun g hg => hf g (by simp [hg])
    have hc : (laneAssist H W f.1 f.2 s).1.coords = s.coords :=
      laneAssist_empty_coords H W f.1 f.2 s hf1
    have hcmd := laneAssist_cmds H W f.1 f.2 s
    obtain ⟨ih1, ih2⟩ := ih (laneAssist H W f.1 f.2 s).1 hfr
    constructor
    · simp only [runFrames]
      rw [ih1, hc]
    · intro cmd hm
      simp only [runFrames, List.mem_append] at hm
      rcases hm with hin | hin
      · rcases hcmd with he | he
        · rw [he] at hin
          simp at hin
        · rw [he] at hin
          simp only [List.mem_singleton] at hin
          rcases hf1 with h1 | h1 <;> rw [h1] at hin
          · rw [drawLines_none] at hin
            simpa using hin
          · rw [drawLines_some_nil] at hin
            simpa using hin
      · have hrec := ih2 cmd hin
        rw [hc] at hrec
        exact hrec

/-- C10 (confirmed): a frame whose extractor output is null or empty
does not update the stored coordinates; consequently, from process
start (stored coordinates all 1) through any run of such frames, the
lane-center x is (1 + 1)/2 = 1 and, for any frame width of at least 44
pixels, every emitted command is the left token. -/
theorem C10_startup_left (H W : ℕ) (frames : List (Option (List Seg) × ℚ))
    (s : AState) (hf : ∀ f ∈ frames, f.1 = none ∨ f.1 = some ([] : List Seg))
    (hs : s.coords = initCoords) (hW : 44 ≤ W) :
    (runFrames H W frames s).1.coords = initCoords ∧
    finalX initCoords = (1 + 1) / 2 ∧
    ∀ cmd ∈ (runFrames H W frames s).2, cmd = "4/" := by
  obtain ⟨h1, h2⟩ := runFrames_empty H W frames s hf
  have hfx : finalX initCoords = 1 := by decide
  have htok : steerToken W 1 = "4/" := by
    have h22 : (22 : ℤ) ≤ ((W / 2 : ℕ) : ℤ) := by
      have : 22 ≤ W / 2 := by omega
      exact_mod_cast this
    have hcond1 : (1 : ℤ) < ((W / 2 : ℕ) : ℤ) - 20 ∨ ((W / 2 : ℕ) : ℤ) + 20 < 1 :=
      Or.inl (by omega)
    have hcond2 : (1 : ℤ) < ((W / 2 : ℕ) : ℤ) := by omega
    unfold steerToken
    rw [if_pos hcond1, if_pos hcond2]
  refine ⟨by rw [h1, hs], by decide, ?_⟩
  intro cmd hm
  have hrec := h2 cmd hm
  rw [hs, hfx, htok] at hrec
  exact hrec

/-- C10 witness: two empty frames at width 640 from the initial
state. -/
theorem C10_witness :
    (∀ f ∈ ([(none, (1 : ℚ)), (some ([] : List Seg), 2)] :
        List (Option (List Seg) × ℚ)), f.1 = none ∨ f.1 = some []) ∧
    (⟨initCoords, 0⟩ : AState).coords = initCoords ∧ (44 : ℕ) ≤ 640 ∧
    (runFrames 480 640 [(none, 1), (some [], 2)] ⟨initCoords, 0⟩).1.coords =
      initCoords ∧
    ∀ cmd ∈ (runFrames 480 640 [(none, 1), (some [], 2)]
        (⟨initCoords, 0⟩ : AState)).2, cmd = "4/" := by
  have h := C10_startup_left 480 640 [(none, 1), (some [], 2)] ⟨initCoords, 0⟩
    (by simp) rfl (by norm_num)
  exact ⟨by simp, rfl, by norm_num, h.1, h.2.2⟩

end CarApp
